import Mathlib

/-!
Verification of the admin-console controller of `src/src/pages/AdminDashboard.tsx`
(investx-pro). Each handler of the React component is embedded as a pure Lean
function from its inputs (current local state, form buffers, and the results the
remote data store returns for the calls the handler issues) to an outcome record
listing the remote writes issued, the notifications shown, the resulting form
state and whether a refresh was triggered.

JavaScript numbers are modelled as `Option ℚ`, with `none` standing for `NaN`;
arithmetic propagates `none` the way JS arithmetic propagates `NaN`.
-/

namespace InvestX

/-- A JS number: `none` is `NaN`, `some q` a finite numeric value. -/
abbrev JSNum := Option ℚ

/-- JS `+` on numbers: `NaN` propagates. -/
def jsAdd : JSNum → JSNum → JSNum
  | some a, some b => some (a + b)
  | _, _ => none

/-- JS `-` on numbers: `NaN` propagates. -/
def jsSub : JSNum → JSNum → JSNum
  | some a, some b => some (a - b)
  | _, _ => none

/-- JS `Math.max(0, x)`: `Math.max` with a `NaN` argument is `NaN`. -/
def jsMax0 : JSNum → JSNum
  | some a => some (max 0 a)
  | none => none

/-- Accumulate a run of leading decimal digits: value so far, digits read so far,
remaining characters. -/
def takeDigits (acc n : ℕ) : List Char → ℕ × ℕ × List Char
  | [] => (acc, n, [])
  | c :: cs =>
    if c.isDigit then takeDigits (10 * acc + (c.toNat - 48)) (n + 1) cs
    else (acc, n, c :: cs)

/-- JS `parseFloat` on a character list: optional sign, decimal digits, optional
fraction after a dot; `none` (`NaN`) when no digit is found. Trailing garbage is
ignored, as in JS. (Leading whitespace and exponents are irrelevant to the forms
at hand and not modelled.) -/
def parseFloatChars (cs : List Char) : JSNum :=
  let signed : ℚ × List Char :=
    match cs with
    | '-' :: r => (-1, r)
    | '+' :: r => (1, r)
    | r => (1, r)
  let (ip, ni, rest) := takeDigits 0 0 signed.2
  match rest with
  | '.' :: r =>
    let (fp, nf, _) := takeDigits 0 0 r
    if ni = 0 ∧ nf = 0 then none
    else some (signed.1 * ((ip : ℚ) + (fp : ℚ) / (10 : ℚ) ^ nf))
  | _ => if ni = 0 then none else some (signed.1 * (ip : ℚ))

/-- JS `parseFloat` on a string. -/
def parseFloat (s : String) : JSNum := parseFloatChars s.data

/-- JS `parseInt` (default radix 10): optional sign then decimal digits; `none`
(`NaN`) when no digit is found; stops at the first non-digit. -/
def parseIntJS (s : String) : Option ℤ :=
  let signed : ℤ × List Char :=
    match s.data with
    | '-' :: r => (-1, r)
    | '+' :: r => (1, r)
    | r => (1, r)
  let (ip, ni, _) := takeDigits 0 0 signed.2
  if ni = 0 then none else some (signed.1 * (ip : ℤ))

/-- A row of the `profiles` table as the dashboard reads it. -/
structure Profile where
  id : String
  first_name : String
  last_name : String
  phone : String
  referral_code : String
  wallet_balance : ℚ
  is_active : Bool
  created_at : String
deriving Repr, DecidableEq

/-- The two-valued package type. -/
inductive PackageType where
  | daily
  | stable
deriving Repr, DecidableEq

/-- A toast notification, abstracted to its title and whether it uses the
`destructive` variant (the free-text description is display-only). -/
structure Toast where
  title : String
  destructive : Bool
deriving Repr, DecidableEq

/-! ## Wallet adjustment (`handleWalletAdjustment`, lines 217–258) -/

/-- The wallet-adjustment direction (`type` field of the form). -/
inductive AdjustType where
  | add
  | subtract
deriving Repr, DecidableEq

/-- The wallet-adjustment form buffer (`walletAdjustment` state). -/
structure WalletAdjustmentForm where
  userId : String
  amount : String
  type : AdjustType
deriving Repr, DecidableEq

/-- The initial wallet-adjustment form, also what the handler resets to on
success: userId and amount reset to the empty string, type to add. -/
def initialWalletAdjustment : WalletAdjustmentForm :=
  { userId := "", amount := "", type := AdjustType.add }

/-- A remote write issued by the wallet-adjustment handler: the update of
`wallet_balance` on the profile row keyed by the user id. -/
structure WalletWrite where
  userId : String
  newBalance : JSNum
deriving Repr, DecidableEq

/-- The observable outcome of one `handleWalletAdjustment` invocation. -/
structure WalletAdjustOutcome where
  writes : List WalletWrite
  toasts : List Toast
  form_after : WalletAdjustmentForm
  refreshed : Bool
deriving Repr, DecidableEq

/-- Embedding of `handleWalletAdjustment`, lines 217–258.
Inputs: the locally held `users` collection, the form buffer, and the `error`
field of the result the store returns for the update (`none` = success). The JS
guard `!walletAdjustment.userId || !walletAdjustment.amount` is falsy only on
the empty string. -/
def handleWalletAdjustment (users : List Profile) (wa : WalletAdjustmentForm)
    (updateError : Option String) : WalletAdjustOutcome :=
  if wa.userId = "" ∨ wa.amount = "" then
    { writes := []
      toasts := [{ title := "Invalid Input", destructive := true }]
      form_after := wa
      refreshed := false }
  else
    match users.find? (fun u => u.id == wa.userId) with
    | none =>
      { writes := [], toasts := [], form_after := wa, refreshed := false }
    | some user =>
      let amount := parseFloat wa.amount
      let newBalance :=
        match wa.type with
        | AdjustType.add => jsAdd (some user.wallet_balance) amount
        | AdjustType.subtract => jsMax0 (jsSub (some user.wallet_balance) amount)
      match updateError with
      | some _ =>
        { writes := [{ userId := wa.userId, newBalance := newBalance }]
          toasts := [{ title := "Error", destructive := true }]
          form_after := wa
          refreshed := false }
      | none =>
        { writes := [{ userId := wa.userId, newBalance := newBalance }]
          toasts := [{ title := "Wallet Adjusted", destructive := false }]
          form_after := initialWalletAdjustment
          refreshed := true }

/-! ## Package creation (`handlePackageCreate`, lines 288–327) -/

/-- The package-creation form buffer (`packageForm` state). -/
structure PackageForm where
  name : String
  amount : String
  return_amount : String
  duration_days : String
  package_type : PackageType
deriving Repr, DecidableEq

/-- The initial package form, also what the handler resets to on success:
name, amount, return_amount and duration_days reset to the empty string,
package_type to stable. -/
def initialPackageForm : PackageForm :=
  { name := "", amount := "", return_amount := "", duration_days := ""
    package_type := PackageType.stable }

/-- The record handed to the `investment_packages` insert (line 301–308). -/
structure PackageInsert where
  name : String
  amount : JSNum
  return_amount : JSNum
  duration_days : Option ℤ
  max_purchases : ℕ
  package_type : PackageType
deriving Repr, DecidableEq

/-- The observable outcome of one `handlePackageCreate` invocation. -/
structure PackageCreateOutcome where
  inserts : List PackageInsert
  toasts : List Toast
  form_after : PackageForm
  refreshed : Bool
deriving Repr, DecidableEq

/-- Embedding of `handlePackageCreate`, lines 288–327. Inputs: the form buffer
and the `error` field of the insert result (`none` = success). The JS guard
`!packageForm.name || !packageForm.amount || !packageForm.return_amount ||
!packageForm.duration_days` is falsy only on the empty string. -/
def handlePackageCreate (form : PackageForm) (insertError : Option String) :
    PackageCreateOutcome :=
  if form.name = "" ∨ form.amount = "" ∨ form.return_amount = "" ∨
      form.duration_days = "" then
    { inserts := []
      toasts := [{ title := "Invalid Input", destructive := true }]
      form_after := form
      refreshed := false }
  else
    let ins : PackageInsert :=
      { name := form.name
        amount := parseFloat form.amount
        return_amount := parseFloat form.return_amount
        duration_days := parseIntJS form.duration_days
        max_purchases := 3
        package_type := form.package_type }
    match insertError with
    | some _ =>
      { inserts := [ins]
        toasts := [{ title := "Error", destructive := true }]
        form_after := form
        refreshed := false }
    | none =>
      { inserts := [ins]
        toasts := [{ title := "Package Created", destructive := false }]
        form_after := initialPackageForm
        refreshed := true }

/-! ## Data refresh (`fetchData`, lines 94–149) -/

/-- A row of the `investment_packages` table as fetched. -/
structure PackageRow where
  id : String
  name : String
  amount : ℚ
  return_amount : ℚ
  duration_days : ℤ
  max_purchases : ℕ
  is_active : Bool
  package_type : PackageType
  daily_income : Option ℚ
deriving Repr, DecidableEq

/-- A row of `withdrawal_requests` joined with its owning profile, as fetched. -/
structure WithdrawalRow where
  id : String
  user_id : String
  amount : ℚ
  fee : ℚ
  net_amount : ℚ
  status : String
  requested_at : String
  profiles : Profile
deriving Repr, DecidableEq

/-- The result of one remote select as the supabase client delivers it: either
the awaited promise rejects (`thrown`), or it resolves to a `{ data, error }`
pair (`data = none` models a `null` data field). -/
inductive FetchResult (α : Type) where
  | thrown (e : String)
  | ok (data : Option (List α)) (error : Option String)
deriving Repr

/-- The per-row mapping applied to fetched packages (lines 124–128):
`{ ...pkg, package_type: pkg.package_type, daily_income: pkg.daily_income || 0 }`;
`|| 0` replaces an absent (or zero) `daily_income` by `0`. -/
def mapPackage (pkg : PackageRow) : PackageRow :=
  { pkg with daily_income := some (pkg.daily_income.getD 0) }

/-- One console call made by `fetchData`, in order:
the fetching banner, the users data and users error debug logs, the users
fetch error report, and the catch-all fetch failure report. -/
inductive FetchLog where
  | fetching
  | usersDataLog (d : Option (List Profile))
  | usersErrorLog (e : Option String)
  | usersFetchError (e : String)
  | fetchFailed (e : String)
deriving Repr, DecidableEq

/-- The observable outcome of one `fetchData` invocation: for each collection,
`none` when the corresponding `set` call was never reached (an earlier await
threw), `some l` when it was set to `l`; plus the toasts shown, the console
calls made, and the final value of the loading flag. -/
structure FetchOutcome where
  users_set : Option (List Profile)
  packages_set : Option (List PackageRow)
  withdrawals_set : Option (List WithdrawalRow)
  toasts : List Toast
  logs : List FetchLog
  loading_after : Bool
deriving Repr, DecidableEq

/-- Embedding of `fetchData`, lines 94–149. The three fetch results are inputs.
A thrown await jumps to the `catch` (log + generic "Error" toast) before any
`set` call runs. When all three resolve, all three collections are set from
`data || []`; only `usersError` is then inspected (error log + destructive
"Users Data Warning" toast); `packagesError` and `withdrawalsError` are
destructured but never read. The `finally` clears the loading flag on every
path. -/
def fetchData (usersRes : FetchResult Profile) (packagesRes : FetchResult PackageRow)
    (withdrawalsRes : FetchResult WithdrawalRow) : FetchOutcome :=
  match usersRes with
  | FetchResult.thrown e =>
    { users_set := none, packages_set := none, withdrawals_set := none
      toasts := [{ title := "Error", destructive := true }]
      logs := [FetchLog.fetching, FetchLog.fetchFailed e]
      loading_after := false }
  | FetchResult.ok usersData usersError =>
    match packagesRes with
    | FetchResult.thrown e =>
      { users_set := none, packages_set := none, withdrawals_set := none
        toasts := [{ title := "Error", destructive := true }]
        logs := [FetchLog.fetching, FetchLog.usersDataLog usersData,
          FetchLog.usersErrorLog usersError, FetchLog.fetchFailed e]
        loading_after := false }
    | FetchResult.ok packagesData _packagesError =>
      match withdrawalsRes with
      | FetchResult.thrown e =>
        { users_set := none, packages_set := none, withdrawals_set := none
          toasts := [{ title := "Error", destructive := true }]
          logs := [FetchLog.fetching, FetchLog.usersDataLog usersData,
            FetchLog.usersErrorLog usersError, FetchLog.fetchFailed e]
          loading_after := false }
      | FetchResult.ok withdrawalsData _withdrawalsError =>
        { users_set := some (usersData.getD [])
          packages_set := some ((packagesData.getD []).map mapPackage)
          withdrawals_set := some (withdrawalsData.getD [])
          toasts :=
            match usersError with
            | some _ => [{ title := "Users Data Warning", destructive := true }]
            | none => []
          logs := [FetchLog.fetching, FetchLog.usersDataLog usersData,
              FetchLog.usersErrorLog usersError] ++
            match usersError with
            | some e => [FetchLog.usersFetchError e]
            | none => []
          loading_after := false }

/-! ## User deletion (`handleUserDeletion`, lines 176–215) -/

/-- A remote call issued during user deletion, in issue order. -/
inductive DeleteEvent where
  | delInvestments (userId : String)
  | delWithdrawals (userId : String)
  | delProfile (userId : String)
  | delAuthUser (userId : String)
deriving Repr, DecidableEq

/-- One console call made by `handleUserDeletion`:
the error report of a failed profile delete, or the warning logged when the
auth-identity removal throws. -/
inductive DeletionLog where
  | errorDeleting (e : String)
  | authWarn (e : String)
deriving Repr, DecidableEq

/-- The observable outcome of one `handleUserDeletion` invocation. -/
structure UserDeletionOutcome where
  events : List DeleteEvent
  toasts : List Toast
  logs : List DeletionLog
  refreshed : Bool
deriving Repr, DecidableEq

/-- Embedding of `handleUserDeletion`, lines 176–215. Inputs: the result of
`window.confirm`, the user id and display name, the `error` fields returned by
the two dependent deletes and by the profile delete (supabase resolves query
errors into the result rather than rejecting), and the error thrown by
`auth.admin.deleteUser` (`none` = it succeeded). The results of the dependent
deletes are awaited but discarded; only a profile-delete error is thrown to the catch;
an auth-deletion error is caught by the inner try and only logged. -/
def handleUserDeletion (confirmed : Bool) (userId : String) (_userName : String)
    (_invError _wdError : Option String) (profError : Option String)
    (authError : Option String) : UserDeletionOutcome :=
  if !confirmed then
    { events := [], toasts := [], logs := [], refreshed := false }
  else
    match profError with
    | some e =>
      { events := [DeleteEvent.delInvestments userId, DeleteEvent.delWithdrawals userId,
          DeleteEvent.delProfile userId]
        toasts := [{ title := "Error", destructive := true }]
        logs := [DeletionLog.errorDeleting e]
        refreshed := false }
    | none =>
      { events := [DeleteEvent.delInvestments userId, DeleteEvent.delWithdrawals userId,
          DeleteEvent.delProfile userId, DeleteEvent.delAuthUser userId]
        toasts := [{ title := "User Deleted", destructive := false }]
        logs :=
          match authError with
          | some e => [DeletionLog.authWarn e]
          | none => []
        refreshed := true }

/-! ## Withdrawal decision (`handleWithdrawalAction`, lines 260–286) -/

/-- The decision passed to the handler. -/
inductive WAction where
  | approve
  | reject
deriving Repr, DecidableEq

/-- The update issued to `withdrawal_requests` (lines 262–268). -/
structure WithdrawalUpdate where
  id : String
  status : String
  processed_at : String
deriving Repr, DecidableEq

/-- The observable outcome of one `handleWithdrawalAction` invocation. -/
structure WithdrawalActionOutcome where
  updates : List WithdrawalUpdate
  toasts : List Toast
  refreshed : Bool
deriving Repr, DecidableEq

/-- Embedding of `handleWithdrawalAction`, lines 260–286. Inputs: the
withdrawal id, the decision, the current time rendered as an ISO string
(`new Date().toISOString()`), and the `error` field of the update result.
The update is issued unconditionally — the handler never reads the current
current status. -/
def handleWithdrawalAction (withdrawalId : String) (action : WAction)
    (now : String) (updateError : Option String) : WithdrawalActionOutcome :=
  let upd : WithdrawalUpdate :=
    { id := withdrawalId
      status := if action = WAction.approve then "approved" else "rejected"
      processed_at := now }
  match updateError with
  | some _ =>
    { updates := [upd]
      toasts := [{ title := "Error", destructive := true }]
      refreshed := false }
  | none =>
    let successTitle : String :=
      if action = WAction.approve then "Withdrawal Approved" else "Withdrawal Rejected"
    { updates := [upd]
      toasts := [{ title := successTitle, destructive := false }]
      refreshed := true }

/-! ## Concrete sample data used by witnesses and counterexamples -/

/-- A sample profile with wallet balance 10000 RWF. -/
def sampleUser : Profile :=
  { id := "u1", first_name := "Alice", last_name := "Umu", phone := "0788",
    referral_code := "RC1", wallet_balance := 10000, is_active := true,
    created_at := "2024-01-01" }

/-! ## Claims about wallet adjustment -/

/-- C1: for every wallet adjustment that reaches the write (user selected and
found, amount string parsed to a number `a`), the balance written is exactly
`current + a` for direction add and exactly `max 0 (current - a)` for direction
subtract; in particular a subtract of more than the current balance writes
exactly `0`. -/
theorem C1_wallet_written_balance (users : List Profile) (wa : WalletAdjustmentForm)
    (ue : Option String) (user : Profile) (a : ℚ)
    (hid : wa.userId ≠ "") (ham : wa.amount ≠ "")
    (hfind : users.find? (fun u => u.id == wa.userId) = some user)
    (hparse : parseFloat wa.amount = some a) :
    (handleWalletAdjustment users wa ue).writes =
      [{ userId := wa.userId
         newBalance := some (match wa.type with
           | AdjustType.add => user.wallet_balance + a
           | AdjustType.subtract => max 0 (user.wallet_balance - a)) }] ∧
    (wa.type = AdjustType.subtract → user.wallet_balance < a →
      (handleWalletAdjustment users wa ue).writes =
        [{ userId := wa.userId, newBalance := some 0 }]) := by
  have hcond : ¬(wa.userId = "" ∨ wa.amount = "") := by
    push_neg
    exact ⟨hid, ham⟩
  unfold handleWalletAdjustment
  rw [if_neg hcond, hfind]
  simp only [hparse]
  constructor
  · cases h : wa.type <;> cases ue <;> simp [jsAdd, jsSub, jsMax0]
  · intro hty hlt
    rw [hty]
    have h0 : max (0 : ℚ) (user.wallet_balance - a) = 0 :=
      max_eq_left (sub_nonpos.mpr hlt.le)
    cases ue <;> simp [jsSub, jsMax0, h0]

/-- Witness for C1 at a concrete input: user with balance 10000, subtracting
15000 writes exactly 0. -/
theorem C1_wallet_written_balance_witness :
    (handleWalletAdjustment [sampleUser]
        { userId := "u1", amount := "15000", type := AdjustType.subtract } none).writes =
      [{ userId := "u1", newBalance := some 0 }] :=
  (C1_wallet_written_balance [sampleUser]
      { userId := "u1", amount := "15000", type := AdjustType.subtract } none
      sampleUser 15000 (by decide) (by decide) (by decide)
      (by simp [parseFloat, parseFloatChars, takeDigits])).2
    rfl (by norm_num [sampleUser])

/-- C3 counterexample: the form amount `"-5"` parses to the non-positive number
`-5`, yet with a selected and found user the handler still issues the remote
write (with balance `current - 5`), contradicting the claim that non-positive
amounts are rejected without a write. -/
theorem C3_counterexample :
    parseFloat "-5" = some (-5) ∧
    (handleWalletAdjustment [sampleUser]
      { userId := "u1", amount := "-5", type := AdjustType.add } none).writes =
      [{ userId := "u1", newBalance := some 9995 }] := by
  constructor
  · simp [parseFloat, parseFloatChars, takeDigits]
  · have hparse : parseFloat "-5" = some (-5) := by
      simp [parseFloat, parseFloatChars, takeDigits]
    simp [handleWalletAdjustment, sampleUser, hparse, jsAdd]
    norm_num

/-- C3 amended: `handleWalletAdjustment` validates before any remote write only
that the user id and the amount string are non-empty; an intent with an empty
user id or empty amount is rejected with an Invalid Input notification and no
write; no parseability or positivity check is made, so once a non-empty user id
matches a held profile the write is issued whatever the amount string parses
to. -/
theorem C3_wallet_validation_empty_only (users : List Profile)
    (wa : WalletAdjustmentForm) (ue : Option String) :
    (wa.userId = "" ∨ wa.amount = "" →
      handleWalletAdjustment users wa ue =
        { writes := []
          toasts := [{ title := "Invalid Input", destructive := true }]
          form_after := wa
          refreshed := false }) ∧
    (∀ user, wa.userId ≠ "" → wa.amount ≠ "" →
      users.find? (fun u => u.id == wa.userId) = some user →
      (handleWalletAdjustment users wa ue).writes ≠ []) := by
  constructor
  · intro h
    unfold handleWalletAdjustment
    rw [if_pos h]
  · intro user hid ham hfind
    have hcond : ¬(wa.userId = "" ∨ wa.amount = "") := by
      push_neg
      exact ⟨hid, ham⟩
    unfold handleWalletAdjustment
    rw [if_neg hcond, hfind]
    cases ue <;> simp

/-- Witness for the amended C3 at a concrete input: an empty amount is rejected
with the Invalid Input toast and no write. -/
theorem C3_wallet_validation_empty_only_witness :
    handleWalletAdjustment [sampleUser]
        { userId := "u1", amount := "", type := AdjustType.add } none =
      { writes := []
        toasts := [{ title := "Invalid Input", destructive := true }]
        form_after := { userId := "u1", amount := "", type := AdjustType.add }
        refreshed := false } :=
  (C3_wallet_validation_empty_only [sampleUser]
      { userId := "u1", amount := "", type := AdjustType.add } none).1 (Or.inr rfl)

/-- C10: with a non-empty user id and non-empty amount but no profile with that
id in the locally held users collection, the handler returns silently: no write,
no notification, form buffer unchanged (and no refresh). -/
theorem C10_wallet_user_not_found_silent (users : List Profile)
    (wa : WalletAdjustmentForm) (ue : Option String)
    (hid : wa.userId ≠ "") (ham : wa.amount ≠ "")
    (habsent : ∀ u ∈ users, u.id ≠ wa.userId) :
    handleWalletAdjustment users wa ue =
      { writes := [], toasts := [], form_after := wa, refreshed := false } := by
  have hcond : ¬(wa.userId = "" ∨ wa.amount = "") := by
    push_neg
    exact ⟨hid, ham⟩
  have hfind : users.find? (fun u => u.id == wa.userId) = none := by
    rw [List.find?_eq_none]
    intro u hu
    simpa using habsent u hu
  unfold handleWalletAdjustment
  rw [if_neg hcond, hfind]

/-- Witness for C10 at a concrete input: user id `"u9"` is held by no profile,
so the handler does nothing observable. -/
theorem C10_wallet_user_not_found_silent_witness :
    handleWalletAdjustment [sampleUser]
        { userId := "u9", amount := "500", type := AdjustType.add } none =
      { writes := [], toasts := []
        form_after := { userId := "u9", amount := "500", type := AdjustType.add }
        refreshed := false } :=
  C10_wallet_user_not_found_silent [sampleUser]
    { userId := "u9", amount := "500", type := AdjustType.add } none
    (by decide) (by decide) (by decide)

/-! ## Claims about package creation -/

/-- C2 counterexample: the amount string `"abc"` is non-empty but non-numeric
(it parses to NaN), yet the handler does not reject the form: the remote insert
is issued (with a NaN amount) and no Invalid Input toast is shown, contradicting
the claim that non-numeric fields are rejected before any write. -/
theorem C2_counterexample :
    parseFloat "abc" = none ∧
    (handlePackageCreate
        { name := "P", amount := "abc", return_amount := "1", duration_days := "1",
          package_type := PackageType.stable } none).inserts =
      [{ name := "P", amount := none, return_amount := some 1, duration_days := some 1,
         max_purchases := 3, package_type := PackageType.stable }] ∧
    (handlePackageCreate
        { name := "P", amount := "abc", return_amount := "1", duration_days := "1",
          package_type := PackageType.stable } none).toasts =
      [{ title := "Package Created", destructive := false }] := by
  refine ⟨by simp [parseFloat, parseFloatChars, takeDigits], ?_, ?_⟩
  · simp [handlePackageCreate, parseFloat, parseFloatChars, takeDigits, parseIntJS]
  · simp [handlePackageCreate]

/-- C2 amended: `handlePackageCreate` attempts no remote write and reports
Invalid Input exactly when name, amount, return amount or duration is the empty
string; whenever all four are non-empty the remote insert is issued, even when a
numeric field is non-numeric (the parsed NaN value is inserted). -/
theorem C2_package_validation_empty_only (form : PackageForm) (ie : Option String) :
    (form.name = "" ∨ form.amount = "" ∨ form.return_amount = "" ∨
        form.duration_days = "" →
      handlePackageCreate form ie =
        { inserts := []
          toasts := [{ title := "Invalid Input", destructive := true }]
          form_after := form
          refreshed := false }) ∧
    (form.name ≠ "" → form.amount ≠ "" → form.return_amount ≠ "" →
      form.duration_days ≠ "" →
      (handlePackageCreate form ie).inserts =
        [{ name := form.name, amount := parseFloat form.amount
           return_amount := parseFloat form.return_amount
           duration_days := parseIntJS form.duration_days
           max_purchases := 3, package_type := form.package_type }]) := by
  constructor
  · intro h
    unfold handlePackageCreate
    rw [if_pos h]
  · intro hn ha hr hd
    have hcond : ¬(form.name = "" ∨ form.amount = "" ∨ form.return_amount = "" ∨
        form.duration_days = "") := by
      push_neg
      exact ⟨hn, ha, hr, hd⟩
    unfold handlePackageCreate
    rw [if_neg hcond]
    cases ie <;> simp

/-- Witness for the amended C2 at a concrete input: an empty name is rejected
with the Invalid Input toast and no insert. -/
theorem C2_package_validation_empty_only_witness :
    handlePackageCreate
        { name := "", amount := "50000", return_amount := "65000",
          duration_days := "30", package_type := PackageType.daily } none =
      { inserts := []
        toasts := [{ title := "Invalid Input", destructive := true }]
        form_after := { name := "", amount := "50000", return_amount := "65000",
                        duration_days := "30", package_type := PackageType.daily }
        refreshed := false } :=
  (C2_package_validation_empty_only
      { name := "", amount := "50000", return_amount := "65000",
        duration_days := "30", package_type := PackageType.daily } none).1 (Or.inl rfl)

/-- C7: a package creation whose four fields are non-empty and whose insert
succeeds inserts exactly one record with `max_purchases = 3`, the package type
taken verbatim from the form, the amount and return amount given by `parseFloat`
of the form strings and the duration by `parseInt`; afterwards the form is reset
to its empty initial state and a refresh is triggered. -/
theorem C7_package_create_success (form : PackageForm)
    (hn : form.name ≠ "") (ha : form.amount ≠ "") (hr : form.return_amount ≠ "")
    (hd : form.duration_days ≠ "") :
    handlePackageCreate form none =
      { inserts :=
          [{ name := form.name, amount := parseFloat form.amount
             return_amount := parseFloat form.return_amount
             duration_days := parseIntJS form.duration_days
             max_purchases := 3, package_type := form.package_type }]
        toasts := [{ title := "Package Created", destructive := false }]
        form_after := initialPackageForm
        refreshed := true } := by
  have hcond : ¬(form.name = "" ∨ form.amount = "" ∨ form.return_amount = "" ∨
      form.duration_days = "") := by
    push_neg
    exact ⟨hn, ha, hr, hd⟩
  unfold handlePackageCreate
  rw [if_neg hcond]

/-- Witness for C7 at the example scenario: name Premium, amount 50000, return
amount 65000, duration 30 days, type daily yields one insert with
`max_purchases = 3` and the parsed numbers, and clears the form. -/
theorem C7_package_create_success_witness :
    handlePackageCreate
        { name := "Premium", amount := "50000", return_amount := "65000",
          duration_days := "30", package_type := PackageType.daily } none =
      { inserts :=
          [{ name := "Premium", amount := some 50000, return_amount := some 65000,
             duration_days := some 30, max_purchases := 3,
             package_type := PackageType.daily }]
        toasts := [{ title := "Package Created", destructive := false }]
        form_after := initialPackageForm
        refreshed := true } := by
  have h := C7_package_create_success
    { name := "Premium", amount := "50000", return_amount := "65000",
      duration_days := "30", package_type := PackageType.daily }
    (by decide) (by decide) (by decide) (by decide)
  rw [h]
  simp [parseFloat, parseFloatChars, takeDigits, parseIntJS]

/-! ## Claims about the data refresh -/

/-- C4 counterexample: with the profiles and withdrawals fetches succeeding and
the packages fetch returning an error in its result, `fetchData` shows no toast
at all and logs nothing beyond the unconditional debug logs — the packages error
is neither logged nor reported, contradicting the claim that such an error is
logged and surfaced as a generic failure notification. -/
theorem C4_counterexample :
    (fetchData (FetchResult.ok (some []) none)
        (FetchResult.ok none (some "permission denied"))
        (FetchResult.ok (some []) none)).toasts = [] ∧
    (fetchData (FetchResult.ok (some []) none)
        (FetchResult.ok none (some "permission denied"))
        (FetchResult.ok (some []) none)).logs =
      [FetchLog.fetching, FetchLog.usersDataLog (some []),
       FetchLog.usersErrorLog none] :=
  ⟨rfl, rfl⟩

/-- C4 amended: when the profiles fetch returns a result carrying an error, the
three collections are still set to whatever was returned (possibly empty) and a
warning notification is surfaced; an error carried in the packages or
withdrawals result is ignored without any log or notification (the outcome is
the one of an error-free result); only a fetch that throws is logged and
reported to the user as a generic failure notification. -/
theorem C4_fetch_error_handling (ud : Option (List Profile))
    (pd : Option (List PackageRow)) (wd : Option (List WithdrawalRow))
    (e : String) (ue pe we : Option String)
    (pr : FetchResult PackageRow) (wr : FetchResult WithdrawalRow) :
    ((fetchData (FetchResult.ok ud (some e)) (FetchResult.ok pd pe)
        (FetchResult.ok wd we)).users_set = some (ud.getD []) ∧
      (fetchData (FetchResult.ok ud (some e)) (FetchResult.ok pd pe)
        (FetchResult.ok wd we)).packages_set = some ((pd.getD []).map mapPackage) ∧
      (fetchData (FetchResult.ok ud (some e)) (FetchResult.ok pd pe)
        (FetchResult.ok wd we)).withdrawals_set = some (wd.getD []) ∧
      (fetchData (FetchResult.ok ud (some e)) (FetchResult.ok pd pe)
        (FetchResult.ok wd we)).toasts =
        [{ title := "Users Data Warning", destructive := true }]) ∧
    (fetchData (FetchResult.ok ud ue) (FetchResult.ok pd (some e))
        (FetchResult.ok wd (some e)) =
      fetchData (FetchResult.ok ud ue) (FetchResult.ok pd none)
        (FetchResult.ok wd none)) ∧
    ((fetchData (FetchResult.thrown e) pr wr).toasts =
        [{ title := "Error", destructive := true }] ∧
      FetchLog.fetchFailed e ∈ (fetchData (FetchResult.thrown e) pr wr).logs) :=
  ⟨⟨rfl, rfl, rfl, rfl⟩, rfl, rfl, by simp [fetchData]⟩

/-- C8: every `fetchData` invocation ends with the loading flag cleared, on the
success path and on every failure path. -/
theorem C8_loading_cleared (ur : FetchResult Profile) (pr : FetchResult PackageRow)
    (wr : FetchResult WithdrawalRow) :
    (fetchData ur pr wr).loading_after = false := by
  cases ur <;> cases pr <;> cases wr <;> rfl

/-! ## Claims about user deletion -/

/-- C5: a confirmed deletion of user U issues the deletes of the dependent
investment and withdrawal records before the delete of the profile row; the
best-effort auth-identity removal is issued exactly when the profile delete
succeeded; and when the identity removal fails its error is only logged — the
cascade is neither undone nor re-attempted (the event trace is exactly the four
deletes, the success toast is shown and the refresh still runs). -/
theorem C5_deletion_cascade_order (uid un : String) (ie we pe ae : Option String) :
    (handleUserDeletion true uid un ie we pe ae).events.take 3 =
      [DeleteEvent.delInvestments uid, DeleteEvent.delWithdrawals uid,
       DeleteEvent.delProfile uid] ∧
    (DeleteEvent.delAuthUser uid ∈ (handleUserDeletion true uid un ie we pe ae).events
      ↔ pe = none) ∧
    (pe = none →
      (handleUserDeletion true uid un ie we pe ae).events =
        [DeleteEvent.delInvestments uid, DeleteEvent.delWithdrawals uid,
         DeleteEvent.delProfile uid, DeleteEvent.delAuthUser uid] ∧
      (handleUserDeletion true uid un ie we pe ae).toasts =
        [{ title := "User Deleted", destructive := false }] ∧
      (handleUserDeletion true uid un ie we pe ae).refreshed = true) := by
  refine ⟨?_, ?_, ?_⟩
  · cases pe <;> rfl
  · cases pe <;> simp [handleUserDeletion]
  · intro h
    subst h
    exact ⟨rfl, rfl, rfl⟩

/-- Witness for C5 at a concrete input: the profile delete succeeds and the
auth-identity removal fails, yet all four deletes stand, the success toast is
shown and the refresh runs. -/
theorem C5_deletion_cascade_order_witness :
    (handleUserDeletion true "u1" "Alice Umu" none none none (some "forbidden")).events =
      [DeleteEvent.delInvestments "u1", DeleteEvent.delWithdrawals "u1",
       DeleteEvent.delProfile "u1", DeleteEvent.delAuthUser "u1"] ∧
    (handleUserDeletion true "u1" "Alice Umu" none none none (some "forbidden")).toasts =
      [{ title := "User Deleted", destructive := false }] ∧
    (handleUserDeletion true "u1" "Alice Umu" none none none (some "forbidden")).refreshed
      = true :=
  (C5_deletion_cascade_order "u1" "Alice Umu" none none none (some "forbidden")).2.2 rfl

/-- C9: the error results of the two dependent deletes are never inspected: the
whole outcome is the same as if they had succeeded, the profile delete is issued
regardless, and the failure path (error log plus destructive Error toast) runs
exactly when the profile delete itself returned an error. -/
theorem C9_dependent_delete_errors_ignored (uid un : String)
    (ie we pe ae : Option String) :
    handleUserDeletion true uid un ie we pe ae =
      handleUserDeletion true uid un none none pe ae ∧
    DeleteEvent.delProfile uid ∈ (handleUserDeletion true uid un ie we pe ae).events ∧
    ((handleUserDeletion true uid un ie we pe ae).toasts =
        [{ title := "Error", destructive := true }] ↔ pe.isSome) := by
  refine ⟨rfl, ?_, ?_⟩
  · cases pe <;> simp [handleUserDeletion]
  · cases pe <;> simp [handleUserDeletion]

/-! ## Claims about withdrawal decisions -/

/-- C6: for every withdrawal id and decision, the handler issues exactly one
update, whose status is approved for the approve decision and rejected for the
reject decision and whose processed timestamp is the current time, and the
refresh runs exactly when the update succeeded; the update is issued for every
input — the handler takes no notice of the current status of the record, so no
pending check is made at write time. -/
theorem C6_withdrawal_decision (wid : String) (action : WAction) (now : String)
    (ue : Option String) :
    (handleWithdrawalAction wid action now ue).updates =
      [{ id := wid
         status := if action = WAction.approve then "approved" else "rejected"
         processed_at := now }] ∧
    (handleWithdrawalAction wid action now ue).refreshed = ue.isNone := by
  cases ue <;> exact ⟨rfl, rfl⟩

end InvestX
